import Mathlib

/-
Verification of the realtime priority-ordering test (an rt-migrate style
LTP test case) and of the getxattr01 test case, via a shallow embedding
of the relevant C functions.

Machine-integer conventions: C `long` / `int` values are modelled as
`Int`; C `unsigned long long` timestamps are modelled as `Nat`, with
64-bit wrap-around subtraction made explicit (`usub64`) where the source
subtracts unsigned values.
-/

/-! Constants from the source (defines at the top of the file). -/

def NS_PER_US : Nat := 1000

def NS_PER_MS : Nat := 1000000

def NS_PER_SEC : Nat := 1000000000

/-- INTERVAL = 100 ms in ns. -/
def INTERVAL : Nat := 100 * NS_PER_MS

/-- RUN_INTERVAL = 20 ms in ns; note this is the compile-time macro, distinct
from the runtime variable run_interval. -/
def RUN_INTERVAL : Nat := 20 * NS_PER_MS

def NR_RUNS : Nat := 50

def PRIO_START : Int := 2

/-- MAX_ERR = 1000 * NS_PER_US (1 millisec in ns), stored in a `long`. -/
def MAX_ERR : Int := 1000 * 1000

/-- Two to the 64, as a numeral. -/
def U64 : Nat := 18446744073709551616

/-- Wrap-around subtraction of 64-bit unsigned values, as in `a - b` on
`unsigned long long`. -/
def usub64 (a b : Nat) : Nat := (a % U64 + U64 - b % U64) % U64

/-! Priority computation: CLAMP, CLAMP_PRIO, the worker priorities passed to
create_fifo_thread, and the main-thread priority set via sched_setscheduler. -/

/-- CLAMP(x, lower, upper) = MIN(upper, MAX(x, lower)). -/
def CLAMP (x lower upper : Int) : Int := min upper (max x lower)

/-- prio_min = sched_get_priority_min(SCHED_FIFO). -/
def prio_min (schedFifoMin : Int) : Int := schedFifoMin

/-- prio_max = sched_get_priority_max(SCHED_FIFO) - 1 (one below the class
maximum, reserving the top priority for the main thread). -/
def prio_max (schedFifoMax : Int) : Int := schedFifoMax - 1

/-- CLAMP_PRIO(prio) = CLAMP(prio, prio_min, prio_max). -/
def CLAMP_PRIO (pmin pmax p : Int) : Int := CLAMP p pmin pmax

/-- Priority handed to create_fifo_thread for worker `id`:
CLAMP_PRIO(prio_start + i). -/
def workerPrio (prioStart pmin pmax : Int) (id : Nat) : Int :=
  CLAMP_PRIO pmin pmax (prioStart + (id : Int))

/-- Priority the coordinator sets for itself:
CLAMP(nr_tasks + prio_start, prio_min, prio_max + 1). -/
def mainPrio (prioStart pmin pmax : Int) (nrTasks : Nat) : Int :=
  CLAMP ((nrTasks : Int) + prioStart) pmin (pmax + 1)

/-! The ordering checker check_times. The three sample series are passed as
functions from task index to the recorded `long` value of run `l`:
`st` for intervals (start offsets), `len` for intervals_length, `lp` for
intervals_loops. The locals last, last_loops, last_length are threaded
explicitly; the loop from i = 1 is the recursion, iteration i = 0 only
performs the trailing assignments (the guard `i && ...` short-circuits). -/

def checkTimesGo (maxErr : Int) (st len lp : Nat → Int) :
    Nat → Nat → Int → Int → Int → Bool
  | _, 0, _, _, _ => false
  | i, fuel + 1, last, lastLoops, lastLength =>
    if last < st i ∧ maxErr < st i - last then
      if lp i < lastLoops ∨ lastLength < st i ∨
          (lastLength < len i ∧ maxErr < len i - lastLength) then
        true
      else
        checkTimesGo maxErr st len lp (i + 1) fuel (st i) (lp i) (len i)
    else
      checkTimesGo maxErr st len lp (i + 1) fuel (st i) (lp i) (len i)

/-- check_times(l): returns true iff the function returns 1 (and sets
check = -1), i.e. iff some candidate violation is confirmed. -/
def check_times (maxErr : Int) (st len lp : Nat → Int) (nrTasks : Nat) : Bool :=
  match nrTasks with
  | 0 => false
  | n + 1 => checkTimesGo maxErr st len lp 1 n (st 0) (lp 0) (len 0)

/-- The condition under which iteration `i` of check_times confirms a
violation: the candidate guard (previous start strictly smaller and more than
max_err apart) together with the confirming disjunction. -/
def checkViol (maxErr : Int) (st len lp : Nat → Int) (i : Nat) : Prop :=
  st (i - 1) < st i ∧ maxErr < st i - st (i - 1) ∧
    (lp i < lp (i - 1) ∨ len (i - 1) < st i ∨
      (len (i - 1) < len i ∧ maxErr < len i - len (i - 1)))

instance (maxErr : Int) (st len lp : Nat → Int) (i : Nat) :
    Decidable (checkViol maxErr st len lp i) := by
  unfold checkViol; infer_instance

theorem checkTimesGo_spec (maxErr : Int) (st len lp : Nat → Int) :
    ∀ (fuel j : Nat),
      checkTimesGo maxErr st len lp (j + 1) fuel (st j) (lp j) (len j) = true ↔
        ∃ i, j + 1 ≤ i ∧ i < j + 1 + fuel ∧ checkViol maxErr st len lp i := by
  intro fuel
  induction fuel with
  | zero =>
    intro j
    simp only [checkTimesGo]
    constructor
    · intro h; cases h
    · rintro ⟨i, h1, h2, _⟩; omega
  | succ fuel ih =>
    intro j
    simp only [checkTimesGo]
    by_cases hg : st j < st (j + 1) ∧ maxErr < st (j + 1) - st j
    · rw [if_pos hg]
      by_cases hc : lp (j + 1) < lp j ∨ len j < st (j + 1) ∨
          (len j < len (j + 1) ∧ maxErr < len (j + 1) - len j)
      · rw [if_pos hc]
        constructor
        · intro _
          refine ⟨j + 1, le_refl _, by omega, ?_⟩
          unfold checkViol
          simpa using ⟨hg.1, hg.2, hc⟩
        · intro _; rfl
      · rw [if_neg hc]
        rw [ih (j + 1)]
        constructor
        · rintro ⟨i, h1, h2, h3⟩
          exact ⟨i, by omega, by omega, h3⟩
        · rintro ⟨i, h1, h2, h3⟩
          refine ⟨i, ?_, by omega, h3⟩
          rcases Nat.eq_or_lt_of_le h1 with heq | hlt
          · exfalso
            unfold checkViol at h3
            rw [← heq] at h3
            simp only [Nat.add_sub_cancel] at h3
            exact hc h3.2.2
          · omega
    · rw [if_neg hg]
      rw [ih (j + 1)]
      constructor
      · rintro ⟨i, h1, h2, h3⟩
        exact ⟨i, by omega, by omega, h3⟩
      · rintro ⟨i, h1, h2, h3⟩
        refine ⟨i, ?_, by omega, h3⟩
        rcases Nat.eq_or_lt_of_le h1 with heq | hlt
        · exfalso
          unfold checkViol at h3
          rw [← heq] at h3
          simp only [Nat.add_sub_cancel] at h3
          exact hg ⟨h3.1, h3.2.1⟩
        · omega

/-- C1 (amended): check_times confirms a violation (returns 1, setting
check = -1) precisely when some task i > 0 has a candidate
(start[i] - start[i-1] > max_err with start[i-1] < start[i]) for which at
least ONE of the confirming conditions holds: loops[i] < loops[i-1], or
start[i] > length[i-1], or (length[i] > length[i-1] and
length[i] - length[i-1] > max_err). A candidate for which NONE of them
holds is the false positive and is ignored. -/
theorem C1_check_times_confirms_iff (maxErr : Int) (st len lp : Nat → Int)
    (nrTasks : Nat) :
    check_times maxErr st len lp nrTasks = true ↔
      ∃ i, 0 < i ∧ i < nrTasks ∧ checkViol maxErr st len lp i := by
  match nrTasks with
  | 0 =>
    simp only [check_times]
    constructor
    · intro h; cases h
    · rintro ⟨i, h1, h2, _⟩; omega
  | n + 1 =>
    simp only [check_times]
    have h := checkTimesGo_spec maxErr st len lp n 0
    simp only [Nat.zero_add] at h
    rw [h]
    constructor
    · rintro ⟨i, h1, h2, h3⟩; exact ⟨i, by omega, by omega, h3⟩
    · rintro ⟨i, h1, h2, h3⟩; exact ⟨i, by omega, by omega, h3⟩

/-- Concrete data refuting claim C1 as stated: a run with a candidate
violation (start gap above max_err) where none of the three conditions of
the claim holds (loop counts equal, start below previous length, spans
equal), and the run is nevertheless NOT flagged: check_times returns 0.
Under the claim, the implication start-gap implies (conditions or flagged)
should hold; here every disjunct is false. -/
def cxSt : Nat → Int := fun i => if i = 0 then 0 else 2000001

def cxLen : Nat → Int := fun _ => 3000000

def cxLp : Nat → Int := fun _ => 5

/-- C1 counterexample: the claimed implication is false for this run. -/
theorem C1_counterexample :
    MAX_ERR < cxSt 1 - cxSt 0 ∧ ¬ (cxLp 1 < cxLp 0) ∧ ¬ (cxLen 0 < cxSt 1) ∧
      ¬ (MAX_ERR < |cxLen 1 - cxLen 0|) ∧
      check_times MAX_ERR cxSt cxLen cxLp 2 = false := by
  decide

/-- C7 (amended): worker priorities CLAMP(prio_start + id, prio_min, prio_max)
are nondecreasing in the task id for every choice of prio_start, task count
and priority range, and strictly increasing on any pair whose unclamped
priorities both lie inside [prio_min, prio_max]. -/
theorem C7_worker_prios_monotone (s m M : Int) (i j : Nat) (hij : i < j) :
    workerPrio s m M i ≤ workerPrio s m M j ∧
      (m ≤ s + (i : Int) → s + (j : Int) ≤ M →
        workerPrio s m M i < workerPrio s m M j) := by
  have hcast : (i : Int) < (j : Int) := by exact_mod_cast hij
  unfold workerPrio CLAMP_PRIO CLAMP
  constructor
  · simp only [min_def, max_def]
    omega
  · intro hm hM
    simp only [min_def, max_def]
    omega

/-- C7 witness: a concrete strictly increasing pair via the theorem. -/
theorem C7_witness :
    (0 : Nat) < 1 ∧
      (workerPrio 2 1 98 0 ≤ workerPrio 2 1 98 1 ∧
        ((1 : Int) ≤ 2 + (0 : Nat) → (2 : Int) + (1 : Nat) ≤ 98 →
          workerPrio 2 1 98 0 < workerPrio 2 1 98 1)) :=
  ⟨by decide, C7_worker_prios_monotone 2 1 98 0 1 (by decide)⟩

/-- C7 counterexample: with prio_start 2 and range [1, 3], tasks 1 and 2 get
the same clamped priority although 1 < 2, so the assigned priorities are not
strictly increasing in the task id for every choice of parameters. -/
theorem C7_counterexample :
    workerPrio 2 1 3 1 = workerPrio 2 1 3 2 ∧ (1 : Nat) < 2 := by
  decide

/-- C6 (amended): prio_min is the scheduling-class minimum and prio_max one
below the class maximum; worker id gets CLAMP(prio_start + id, prio_min,
prio_max); the coordinator sets CLAMP(nr_tasks + prio_start, prio_min,
prio_max + 1), which is at least every worker priority, and strictly above
every worker whenever prio_min < prio_start + nr_tasks (in particular for
the default prio_start = 2). -/
theorem C6_main_prio_above_workers (schedFifoMin schedFifoMax s m M : Int)
    (n i : Nat) (hin : i < n) :
    prio_min schedFifoMin = schedFifoMin ∧
      prio_max schedFifoMax = schedFifoMax - 1 ∧
      workerPrio s m M i ≤ mainPrio s m M n ∧
      (m < s + (n : Int) → workerPrio s m M i < mainPrio s m M n) := by
  have hcast : (i : Int) < (n : Int) := by exact_mod_cast hin
  refine ⟨rfl, rfl, ?_, ?_⟩
  · unfold workerPrio mainPrio CLAMP_PRIO CLAMP
    simp only [min_def, max_def]
    omega
  · intro hm
    unfold workerPrio mainPrio CLAMP_PRIO CLAMP
    simp only [min_def, max_def]
    omega

/-- C6 witness: the default configuration on Linux SCHED_FIFO, 4 tasks. -/
theorem C6_witness :
    prio_min 1 = 1 ∧ prio_max 99 = 99 - 1 ∧
      workerPrio 2 1 98 0 ≤ mainPrio 2 1 98 4 ∧
      ((1 : Int) < 2 + (4 : Nat) → workerPrio 2 1 98 0 < mainPrio 2 1 98 4) :=
  C6_main_prio_above_workers 1 99 2 1 98 4 0 (by decide)

/-- C6 counterexample: with prio_start 0, one task and range [1, 98], the
coordinator priority CLAMP(1 + 0, 1, 99) = 1 equals the worker priority
CLAMP(0, 1, 98) = 1, so it is not strictly greater than every worker. -/
theorem C6_counterexample : mainPrio 0 1 98 1 = workerPrio 0 1 98 0 := by
  decide

/-! Initialization tracking for the check_times locals. The C declarations
`long last; long last_loops; long last_length;` carry no initializer; this
variant threads them as `Option Int` (`none` = never assigned) and yields
`none` as soon as a read of an unassigned variable happens. The iteration
order, the short-circuit of the guard `i && ...` (no read at i = 0) and the
read order (last in the guard, then last_loops and last_length in the inner
condition) follow the source. -/

def checkTimesGoUninit (maxErr : Int) (st len lp : Nat → Int) :
    Nat → Nat → Option Int → Option Int → Option Int → Option Bool
  | _, 0, _, _, _ => some false
  | i, fuel + 1, last, lastLoops, lastLength =>
    if i = 0 then
      checkTimesGoUninit maxErr st len lp (i + 1) fuel
        (some (st i)) (some (lp i)) (some (len i))
    else
      match last with
      | none => none
      | some la =>
        if la < st i ∧ maxErr < st i - la then
          match lastLoops, lastLength with
          | some llo, some lle =>
            if lp i < llo ∨ lle < st i ∨
                (lle < len i ∧ maxErr < len i - lle) then
              some true
            else
              checkTimesGoUninit maxErr st len lp (i + 1) fuel
                (some (st i)) (some (lp i)) (some (len i))
          | _, _ => none
        else
          checkTimesGoUninit maxErr st len lp (i + 1) fuel
            (some (st i)) (some (lp i)) (some (len i))

/-- check_times with explicit tracking of the initialization state of the
loop-carried locals: the whole loop from i = 0 with all three locals
unassigned on entry. -/
def check_times_uninit (maxErr : Int) (st len lp : Nat → Int)
    (nrTasks : Nat) : Option Bool :=
  checkTimesGoUninit maxErr st len lp 0 nrTasks none none none

theorem checkTimesGoUninit_someArgs (maxErr : Int) (st len lp : Nat → Int) :
    ∀ (fuel j : Nat) (la llo lle : Int),
      checkTimesGoUninit maxErr st len lp (j + 1) fuel
          (some la) (some llo) (some lle) =
        some (checkTimesGo maxErr st len lp (j + 1) fuel la llo lle) := by
  intro fuel
  induction fuel with
  | zero => intro j la llo lle; rfl
  | succ fuel ih =>
    intro j la llo lle
    simp only [checkTimesGoUninit, checkTimesGo, Nat.succ_ne_zero, if_false]
    by_cases hg : la < st (j + 1) ∧ maxErr < st (j + 1) - la
    · rw [if_pos hg, if_pos hg]
      by_cases hc : lp (j + 1) < llo ∨ lle < st (j + 1) ∨
          (lle < len (j + 1) ∧ maxErr < len (j + 1) - lle)
      · rw [if_pos hc, if_pos hc]
      · rw [if_neg hc, if_neg hc]
        exact ih (j + 1) (st (j + 1)) (lp (j + 1)) (len (j + 1))
    · rw [if_neg hg, if_neg hg]
      exact ih (j + 1) (st (j + 1)) (lp (j + 1)) (len (j + 1))

/-- C8 (amended): the loop-carried comparison state is assigned at the end of
every iteration and the guard `i && ...` short-circuits at i = 0, so in every
execution of check_times each read (first possible at i = 1) sees the values
assigned during iteration i - 1 of the same call: the tracked run never hits
an unassigned read and computes exactly the plain check_times result. -/
theorem C8_check_times_no_uninitialized_read (maxErr : Int)
    (st len lp : Nat → Int) (nrTasks : Nat) :
    check_times_uninit maxErr st len lp nrTasks =
      some (check_times maxErr st len lp nrTasks) := by
  match nrTasks with
  | 0 => rfl
  | n + 1 =>
    unfold check_times_uninit check_times
    simp only [checkTimesGoUninit, if_pos rfl]
    exact checkTimesGoUninit_someArgs maxErr st len lp n 0 (st 0) (lp 0) (len 0)

/-- C8 counterexample: negation of the claim. There is no execution of
check_times in which a candidate-violation comparison reads comparison state
that was never assigned during that call: the tracked variant never returns
the unassigned-read outcome. -/
theorem C8_counterexample :
    ¬ ∃ (maxErr : Int) (st len lp : Nat → Int) (nrTasks : Nat),
        check_times_uninit maxErr st len lp nrTasks = none := by
  rintro ⟨maxErr, st, len, lp, nrTasks, h⟩
  rw [C8_check_times_no_uninitialized_read] at h
  cases h

/-! The busy loop and option parsing. busy_loop spins reading the clock until
the elapsed time reaches the compile-time constant RUN_INTERVAL; the clock is
modelled as the sequence of values returned by successive rt_gettime calls
(modelled from the spec: rt_gettime is the monotonic high-resolution clock
accessor of the external test library). The loop counter l is incremented
before each read, so the read at counter value l sees sample `clock l`; a
fuel bound models the possibility that the clock never advances far enough. -/

def busyLoopGo (clock : Nat → Nat) (startTime : Nat) : Nat → Nat → Option Nat
  | 0, _ => none
  | fuel + 1, l =>
    if usub64 (clock l) startTime < RUN_INTERVAL then
      busyLoopGo clock startTime fuel (l + 1)
    else
      some (l + 1)

/-- busy_loop(start_time): returns the loop count on exit. Note the loop
condition compares against the constant RUN_INTERVAL, not the runtime
variable run_interval. -/
def busy_loop (clock : Nat → Nat) (startTime : Nat) (fuel : Nat) : Option Nat :=
  busyLoopGo clock startTime fuel 0

/-- Options held in the static variables settable by parse_args. -/
structure Opts where
  prio_start : Int
  run_interval : Nat
  interval : Nat
  nr_runs : Int
  max_err : Int
  deriving DecidableEq

def defaultOpts : Opts :=
  { prio_start := PRIO_START, run_interval := RUN_INTERVAL,
    interval := INTERVAL, nr_runs := (NR_RUNS : Int), max_err := MAX_ERR }

/-- parse_args: the switch over the option character, with `v` the atoi value
of the argument. Returns the updated options and the handled flag. -/
def parse_args (c : Char) (v : Int) (o : Opts) : Opts × Bool :=
  match c with
  | 'a' => ({ o with prio_start := v }, true)
  | 'r' => ({ o with run_interval := v.toNat }, true)
  | 't' => ({ o with interval := v.toNat }, true)
  | 'l' => ({ o with nr_runs := v }, true)
  | 'e' => ({ o with max_err := v * (NS_PER_US : Int) }, true)
  | '?' => (o, false)
  | 'h' => (o, false)
  | _ => (o, true)

/-- Clock advancing one millisecond per busy-loop iteration, starting at 0. -/
def cxClock : Nat → Nat := fun k => k * NS_PER_MS

/-- C2: divergence at the failing input `-r 40`. parse_args stores 40 into
run_interval, yet busy_loop exits as soon as the elapsed time reaches the
constant RUN_INTERVAL: on a clock advancing 1 ms per iteration it returns
after exactly 21 iterations with elapsed time 20 ms — not the configured
40 ms (nor the stored raw value), and with a positive loop count. -/
theorem C2_busy_loop_ignores_configured_run_interval :
    (parse_args 'r' 40 defaultOpts).1.run_interval = 40 ∧
      (parse_args 'r' 40 defaultOpts).1.run_interval ≠ RUN_INTERVAL ∧
      busy_loop cxClock 0 64 = some 21 ∧
      usub64 (cxClock 20) 0 = RUN_INTERVAL ∧
      RUN_INTERVAL < 40 * NS_PER_MS := by
  refine ⟨rfl, by decide, ?_, by decide, by decide⟩
  decide

/-! Sample recording and the run loop. The three per-task containers
intervals, intervals_length and intervals_loops are modelled from the spec:
libstats (stats_container_init / stats_container_append) is not part of the
sources here; per the spec a sample series is an ordered append-only
sequence, modelled as a Lean list of the recorded `long` y values (the x
values, all equal to the run index, are omitted). Likewise the pthread
barriers and worker threads are external; per the spec the barriers make
each run a lockstep phase, so one run is modelled as: every task records,
then the coordinator checks. -/

structure TaskSeries where
  starts : List Int
  lengths : List Int
  loopsCnt : List Int
  deriving DecidableEq

/-- record_time(id, time, l) for one task. `loopVar` and `nrRuns` are the
globals loop and nr_runs at call time; `now` is the run epoch in µs;
`timeUs` is the argument time = start_time / NS_PER_US; `tNow` is the value
read from rt_gettime inside record_time (in ns); `l` is the loop count.
The function returns early, recording nothing, when loop >= nr_runs;
otherwise it appends time - now, rt_gettime()/NS_PER_US - now and l to the
three series of the task. -/
def record_time (loopVar nrRuns : Nat) (now timeUs tNow l : Nat)
    (s : TaskSeries) : TaskSeries :=
  if nrRuns ≤ loopVar then s
  else
    { starts := s.starts ++ [(usub64 timeUs now : Int)],
      lengths := s.lengths ++ [(usub64 (tNow / NS_PER_US) now : Int)],
      loopsCnt := s.loopsCnt ++ [(l : Int)] }

/-- The events of one iteration of the start_task while-loop body, in
program order: the start-barrier wait, the record_time call, and the
end-barrier wait. None of them is conditional in the source. -/
inductive WorkerEvent where
  | startBarrier
  | recordCall
  | endBarrier
  deriving DecidableEq

/-- One iteration of the start_task worker body: both barrier waits happen
unconditionally; recording is delegated to record_time (whose guard may
record nothing). -/
def start_task_iteration (loopVar nrRuns : Nat) (now timeUs tNow l : Nat)
    (s : TaskSeries) : List WorkerEvent × TaskSeries :=
  ([WorkerEvent.startBarrier, WorkerEvent.recordCall, WorkerEvent.endBarrier],
    record_time loopVar nrRuns now timeUs tNow l s)

/-- The per-run measurement data of all tasks: the run epoch `now` (µs), and
per task the start_time / NS_PER_US value, the rt_gettime value read inside
record_time (ns) and the busy-loop count. -/
structure RunData where
  now : Nat
  timeUs : Nat → Nat
  tNow : Nat → Nat
  loopsDone : Nat → Nat

/-- The start-offset value task `t` records in run `d`. -/
def runStartVal (d : RunData) (t : Nat) : Int := (usub64 (d.timeUs t) d.now : Int)

/-- The length value task `t` records in run `d`. -/
def runLenVal (d : RunData) (t : Nat) : Int :=
  (usub64 (d.tNow t / NS_PER_US) d.now : Int)

/-- The loop-count value task `t` records in run `d`. -/
def runLoopsVal (d : RunData) (t : Nat) : Int := (d.loopsDone t : Int)

/-- All tasks of one run record their samples, task t of the list getting
the data of task index `t0 + position`. -/
def recordRunGo (loopVar nrRuns : Nat) (d : RunData) :
    Nat → List TaskSeries → List TaskSeries
  | _, [] => []
  | t, s :: rest =>
    record_time loopVar nrRuns d.now (d.timeUs t) (d.tNow t) (d.loopsDone t) s ::
      recordRunGo loopVar nrRuns d (t + 1) rest

def recordRun (loopVar nrRuns : Nat) (d : RunData) (series : List TaskSeries) :
    List TaskSeries :=
  recordRunGo loopVar nrRuns d 0 series

/-- Does check_times confirm a violation on the data of run `d`? -/
def runViolation (nrTasks : Nat) (maxErr : Int) (d : RunData) : Bool :=
  check_times maxErr (runStartVal d) (runLenVal d) (runLoopsVal d) nrTasks

/-- The SIGINT handler stop_log: it assigns 0 to the global stop flag
(whose static initial value is already 0). -/
def stop_log (sig : Int) (stop : Int) : Int := 0

/-- Value of the stop flag after `k` deliveries of the signal, starting from
the static initializer 0. -/
def stopAfterSignals : Nat → Int
  | 0 => 0
  | k + 1 => stop_log 2 (stopAfterSignals k)

/-- The run loop of run_test, beginning at loop = loopVar with
fuel = nr_runs - loopVar iterations left. Each iteration: the workers of
this run record their samples (between the two barriers), then the
coordinator evaluates `stop || (check && check_times(loop))`; on a stop or a
confirmed violation it increments loop and truncates nr_runs to it. Returns
the final (series, check, nr_runs). `stopSeq r` is the stop flag value read
at the boundary of run r, and `data r` the measurements of run r. -/
def runTestLoop (nrTasks : Nat) (maxErr : Int) (stopSeq : Nat → Bool)
    (data : Nat → RunData) :
    Nat → Nat → Nat → List TaskSeries → Int → List TaskSeries × Int × Nat
  | _, 0, nrRuns, series, check => (series, check, nrRuns)
  | loopVar, fuel + 1, nrRuns, series, check =>
    if stopSeq loopVar then
      (recordRun loopVar nrRuns (data loopVar) series, check, loopVar + 1)
    else if check ≠ 0 ∧ runViolation nrTasks maxErr (data loopVar) then
      (recordRun loopVar nrRuns (data loopVar) series, -1, loopVar + 1)
    else
      runTestLoop nrTasks maxErr stopSeq data (loopVar + 1) fuel nrRuns
        (recordRun loopVar nrRuns (data loopVar) series) check

/-- run_test: allocate empty series per task, run the loop from loop = 0
with check = 1, then release the workers one final time (they call
record_time with loop equal to the final nr_runs, so the guard makes them
record nothing) and render the verdict from check. Returns the series, the
final check value and the final nr_runs. -/
def runTestLoopFromStart (nrTasks nrRuns0 : Nat) (maxErr : Int)
    (stopSeq : Nat → Bool) (data : Nat → RunData) :
    List TaskSeries × Int × Nat :=
  runTestLoop nrTasks maxErr stopSeq data 0 nrRuns0 nrRuns0
    (List.replicate nrTasks (TaskSeries.mk [] [] [])) 1

def run_test (nrTasks nrRuns0 : Nat) (maxErr : Int) (stopSeq : Nat → Bool)
    (data : Nat → RunData) : List TaskSeries × Int × Nat :=
  ((recordRun (runTestLoopFromStart nrTasks nrRuns0 maxErr stopSeq data).2.2
      (runTestLoopFromStart nrTasks nrRuns0 maxErr stopSeq data).2.2
      (data (runTestLoopFromStart nrTasks nrRuns0 maxErr stopSeq data).2.2)
      (runTestLoopFromStart nrTasks nrRuns0 maxErr stopSeq data).1),
    (runTestLoopFromStart nrTasks nrRuns0 maxErr stopSeq data).2.1,
    (runTestLoopFromStart nrTasks nrRuns0 maxErr stopSeq data).2.2)

/-- Verdict printed at the end of run_test: TFAIL iff check < 0. -/
def verdictFail (check : Int) : Bool := check < 0

/-! Bookkeeping lemmas about recording. -/

theorem usub64_eq_sub (a b : Nat) (hb : b ≤ a) (ha : a < U64) :
    usub64 a b = a - b := by
  simp only [usub64, U64] at *
  omega

theorem record_time_noop (loopVar nrRuns now timeUs tNow l : Nat)
    (s : TaskSeries) (h : nrRuns ≤ loopVar) :
    record_time loopVar nrRuns now timeUs tNow l s = s := by
  unfold record_time
  rw [if_pos h]

theorem recordRunGo_length (loopVar nrRuns : Nat) (d : RunData) :
    ∀ (series : List TaskSeries) (t : Nat),
      (recordRunGo loopVar nrRuns d t series).length = series.length := by
  intro series
  induction series with
  | nil => intro t; rfl
  | cons s rest ih =>
    intro t
    unfold recordRunGo
    simp only [List.length_cons, ih]

theorem recordRunGo_noop (loopVar nrRuns : Nat) (d : RunData)
    (h : nrRuns ≤ loopVar) :
    ∀ (series : List TaskSeries) (t : Nat),
      recordRunGo loopVar nrRuns d t series = series := by
  intro series
  induction series with
  | nil => intro t; rfl
  | cons s rest ih =>
    intro t
    unfold recordRunGo
    rw [record_time_noop _ _ _ _ _ _ _ h, ih]

/-- All series of all tasks hold exactly `k` samples. -/
def allLen (k : Nat) (series : List TaskSeries) : Prop :=
  ∀ ts ∈ series,
    ts.starts.length = k ∧ ts.lengths.length = k ∧ ts.loopsCnt.length = k

theorem allLen_recordRunGo (loopVar nrRuns : Nat) (d : RunData) (k : Nat)
    (h : loopVar < nrRuns) :
    ∀ (series : List TaskSeries) (t : Nat), allLen k series →
      allLen (k + 1) (recordRunGo loopVar nrRuns d t series) := by
  intro series
  induction series with
  | nil => intro t _ ts hts; cases hts
  | cons s rest ih =>
    intro t hk ts hts
    unfold recordRunGo at hts
    rcases List.mem_cons.mp hts with hh | hh
    · subst hh
      have hs := hk s (List.mem_cons_self _ _)
      simp only [record_time, if_neg (show ¬ nrRuns ≤ loopVar by omega)]
      simp [hs.1, hs.2.1, hs.2.2]
    · exact ih (t + 1) (fun x hx => hk x (List.mem_cons_of_mem _ hx)) ts hh

theorem runTestLoop_invariant (nrTasks : Nat) (maxErr : Int)
    (stopSeq : Nat → Bool) (data : Nat → RunData) :
    ∀ (fuel loopVar nrRuns : Nat) (series : List TaskSeries) (check : Int),
      loopVar + fuel = nrRuns → series.length = nrTasks →
      allLen loopVar series →
      (runTestLoop nrTasks maxErr stopSeq data loopVar fuel nrRuns series
          check).1.length = nrTasks ∧
      allLen (runTestLoop nrTasks maxErr stopSeq data loopVar fuel nrRuns
          series check).2.2
        (runTestLoop nrTasks maxErr stopSeq data loopVar fuel nrRuns series
          check).1 ∧
      (runTestLoop nrTasks maxErr stopSeq data loopVar fuel nrRuns series
          check).2.2 ≤ nrRuns := by
  intro fuel
  induction fuel with
  | zero =>
    intro loopVar nrRuns series check hfu hlen hall
    have he : loopVar = nrRuns := by omega
    subst he
    exact ⟨hlen, hall, le_refl _⟩
  | succ fuel ih =>
    intro loopVar nrRuns series check hfu hlen hall
    have hlt : loopVar < nrRuns := by omega
    have hrec1 : (recordRun loopVar nrRuns (data loopVar) series).length =
        nrTasks := by
      rw [recordRun, recordRunGo_length]
      exact hlen
    have hrec2 : allLen (loopVar + 1)
        (recordRun loopVar nrRuns (data loopVar) series) :=
      allLen_recordRunGo _ _ _ _ hlt series 0 hall
    simp only [runTestLoop]
    by_cases hstop : stopSeq loopVar
    · rw [if_pos hstop]
      exact ⟨hrec1, hrec2, show loopVar + 1 ≤ nrRuns by omega⟩
    · rw [if_neg hstop]
      by_cases hv : check ≠ 0 ∧ runViolation nrTasks maxErr (data loopVar) = true
      · rw [if_pos hv]
        exact ⟨hrec1, hrec2, show loopVar + 1 ≤ nrRuns by omega⟩
      · rw [if_neg hv]
        exact ih (loopVar + 1) nrRuns _ check (by omega) hrec1 hrec2

/-- C4: on termination of the run loop (any combination of stop requests and
confirmed violations), the series list has one entry per task, the final
nr_runs never exceeds the initial one, every task holds exactly nr_runs
samples in each of its three series (so samples for a run index exist for
all tasks or for none), and a worker iteration entered once no further runs
are accepted still performs both barrier waits while recording nothing. -/
theorem C4_series_invariants (nrTasks nrRuns0 : Nat) (maxErr : Int)
    (stopSeq : Nat → Bool) (data : Nat → RunData) :
    (run_test nrTasks nrRuns0 maxErr stopSeq data).1.length = nrTasks ∧
    (run_test nrTasks nrRuns0 maxErr stopSeq data).2.2 ≤ nrRuns0 ∧
    allLen (run_test nrTasks nrRuns0 maxErr stopSeq data).2.2
      (run_test nrTasks nrRuns0 maxErr stopSeq data).1 ∧
    (∀ (loopVar nrRuns now timeUs tNow l : Nat) (s : TaskSeries),
      nrRuns ≤ loopVar →
      start_task_iteration loopVar nrRuns now timeUs tNow l s =
        ([WorkerEvent.startBarrier, WorkerEvent.recordCall,
          WorkerEvent.endBarrier], s)) := by
  have hinit1 : (List.replicate nrTasks (TaskSeries.mk [] [] [])).length =
      nrTasks := List.length_replicate _ _
  have hinit2 : allLen 0 (List.replicate nrTasks (TaskSeries.mk [] [] [])) := by
    intro ts hts
    have he := List.eq_of_mem_replicate hts
    subst he
    exact ⟨rfl, rfl, rfl⟩
  have H := runTestLoop_invariant nrTasks maxErr stopSeq data nrRuns0 0 nrRuns0
    (List.replicate nrTasks (TaskSeries.mk [] [] [])) 1 (by omega) hinit1 hinit2
  have hpost : (run_test nrTasks nrRuns0 maxErr stopSeq data).1 =
      (runTestLoopFromStart nrTasks nrRuns0 maxErr stopSeq data).1 := by
    unfold run_test
    rw [recordRun, recordRunGo_noop _ _ _ (le_refl _)]
  refine ⟨?_, ?_, ?_, ?_⟩
  · rw [hpost]
    exact H.1
  · exact H.2.2
  · rw [hpost]
    exact H.2.1
  · intro loopVar nrRuns now timeUs tNow l s h
    unfold start_task_iteration
    rw [record_time_noop _ _ _ _ _ _ _ h]

/-- C4 witness: a concrete instantiation of the invariant theorem. -/
theorem C4_witness :
    (run_test 2 3 MAX_ERR (fun _ => false)
      (fun _ => RunData.mk 0 (fun _ => 0) (fun _ => 0) (fun _ => 1))).1.length
      = 2 :=
  (C4_series_invariants 2 3 MAX_ERR (fun _ => false)
    (fun _ => RunData.mk 0 (fun _ => 0) (fun _ => 0) (fun _ => 1))).1

/-! Verdict characterization. -/

theorem runTestLoop_check_spec (nrTasks : Nat) (maxErr : Int)
    (stopSeq : Nat → Bool) (data : Nat → RunData) :
    ∀ (fuel loopVar nrRuns : Nat) (series : List TaskSeries),
      ((runTestLoop nrTasks maxErr stopSeq data loopVar fuel nrRuns series
          1).2.1 < 0 ↔
        ∃ r, loopVar ≤ r ∧ r < loopVar + fuel ∧ stopSeq r = false ∧
          runViolation nrTasks maxErr (data r) = true ∧
          ∀ r2, loopVar ≤ r2 → r2 < r → stopSeq r2 = false ∧
            runViolation nrTasks maxErr (data r2) = false) := by
  intro fuel
  induction fuel with
  | zero =>
    intro loopVar nrRuns series
    simp only [runTestLoop]
    constructor
    · intro h
      exact absurd (show (1 : Int) < 0 from h) (by omega)
    · rintro ⟨r, h1, h2, _⟩
      omega
  | succ fuel ih =>
    intro loopVar nrRuns series
    simp only [runTestLoop]
    by_cases hstop : stopSeq loopVar
    · rw [if_pos hstop]
      constructor
      · intro h
        exact absurd (show (1 : Int) < 0 from h) (by omega)
      · rintro ⟨r, h1, h2, h3, h4, h5⟩
        rcases Nat.eq_or_lt_of_le h1 with he | hl
        · rw [he] at hstop
          rw [hstop] at h3
          cases h3
        · have hcontra := (h5 loopVar (le_refl _) hl).1
          rw [hstop] at hcontra
          cases hcontra
    · rw [if_neg hstop]
      by_cases hv : runViolation nrTasks maxErr (data loopVar) = true
      · rw [if_pos (show (1 : Int) ≠ 0 ∧
            runViolation nrTasks maxErr (data loopVar) = true from
              ⟨by omega, hv⟩)]
        constructor
        · intro _
          refine ⟨loopVar, le_refl _, by omega, by simpa using hstop, hv, ?_⟩
          intro r2 hr1 hr2
          omega
        · intro _
          show (-1 : Int) < 0
          omega
      · rw [if_neg (show ¬ ((1 : Int) ≠ 0 ∧
            runViolation nrTasks maxErr (data loopVar) = true) from
              fun hc => hv hc.2)]
        rw [ih (loopVar + 1) nrRuns _]
        constructor
        · rintro ⟨r, h1, h2, h3, h4, h5⟩
          refine ⟨r, by omega, by omega, h3, h4, ?_⟩
          intro r2 hr1 hr2
          rcases Nat.eq_or_lt_of_le hr1 with he | hl
          · rw [← he]
            exact ⟨by simpa using hstop, by simpa using hv⟩
          · exact h5 r2 (by omega) hr2
        · rintro ⟨r, h1, h2, h3, h4, h5⟩
          have hne : r ≠ loopVar := by
            intro he
            rw [he] at h4
            exact hv h4
          refine ⟨r, by omega, by omega, h3, h4, ?_⟩
          intro r2 hr1 hr2
          exact h5 r2 (by omega) hr2

/-- C9: the final verdict is TFAIL exactly when check was set to -1 by
check_times, i.e. exactly when some executed run r carried a confirmed
(non-false-positive) ordering violation — reached with no earlier stop
request and no earlier confirmed violation, and itself free of a
simultaneous stop request (the stop test short-circuits before check_times
runs). In particular a truncation caused by the stop flag alone never turns
the verdict into TFAIL. -/
theorem C9_verdict_iff_confirmed_violation (nrTasks nrRuns0 : Nat)
    (maxErr : Int) (stopSeq : Nat → Bool) (data : Nat → RunData) :
    verdictFail (run_test nrTasks nrRuns0 maxErr stopSeq data).2.1 = true ↔
      ∃ r, r < nrRuns0 ∧ stopSeq r = false ∧
        runViolation nrTasks maxErr (data r) = true ∧
        ∀ r2, r2 < r → stopSeq r2 = false ∧
          runViolation nrTasks maxErr (data r2) = false := by
  have h := runTestLoop_check_spec nrTasks maxErr stopSeq data nrRuns0 0 nrRuns0
    (List.replicate nrTasks (TaskSeries.mk [] [] []))
  unfold run_test
  unfold verdictFail
  rw [decide_eq_true_iff]
  unfold runTestLoopFromStart
  rw [h]
  constructor
  · rintro ⟨r, _, h2, h3, h4, h5⟩
    exact ⟨r, by omega, h3, h4, fun r2 hr2 => h5 r2 (by omega) hr2⟩
  · rintro ⟨r, h1, h3, h4, h5⟩
    exact ⟨r, by omega, by omega, h3, h4, fun r2 _ hr2 => h5 r2 hr2⟩

/-- Measurement data in which every task of every run records identical
values: no candidate violation can arise. -/
def cleanData : Nat → RunData :=
  fun _ => RunData.mk 0 (fun _ => 0) (fun _ => 0) (fun _ => 1)

/-- C9 witness: concrete instantiation of the verdict characterization. -/
theorem C9_witness :
    verdictFail (run_test 1 2 MAX_ERR (fun _ => false) cleanData).2.1 = true ↔
      ∃ r, r < 2 ∧ (fun _ => false : Nat → Bool) r = false ∧
        runViolation 1 MAX_ERR (cleanData r) = true ∧
        ∀ r2, r2 < r → (fun _ => false : Nat → Bool) r2 = false ∧
          runViolation 1 MAX_ERR (cleanData r2) = false :=
  C9_verdict_iff_confirmed_violation 1 2 MAX_ERR (fun _ => false) cleanData

/-- C3: the SIGINT handler assigns 0 to the stop flag, whose static initial
value is already 0, so no number of signal deliveries ever makes it nonzero;
with the stop flag read at every run boundary taken from the handler state
after any positive number of deliveries, a 3-run execution on clean data
still performs all 3 runs (nr_runs is never truncated) and passes — the
cooperative stop the claim describes never happens. -/
theorem C3_sigint_never_stops :
    (∀ s : Int, stop_log 2 s = 0) ∧
    (∀ k, stopAfterSignals k = 0) ∧
    (run_test 1 3 MAX_ERR (fun r => decide (stopAfterSignals (r + 1) ≠ 0))
      cleanData).2.2 = 3 ∧
    verdictFail (run_test 1 3 MAX_ERR
      (fun r => decide (stopAfterSignals (r + 1) ≠ 0)) cleanData).2.1 = false := by
  refine ⟨fun s => rfl, fun k => ?_, by decide, by decide⟩
  cases k with
  | zero => rfl
  | succ k => rfl

/-! Theorems about record_time (the per-run samples of one task). -/

/-- C5 counterexample: with run epoch now = 1000 µs, start_time/NS_PER_US =
1010 µs and the rt_gettime read inside record_time at 1030000 ns = 1030 µs,
the busy interval lasted 20 µs, but the value appended to the second series
(intervals_length) is 30 — the finish-time offset from the run epoch, not
the duration of the busy interval. -/
theorem C5_counterexample :
    (record_time 0 1 1000 1010 1030000 7 (TaskSeries.mk [] [] [])).lengths =
        [(30 : Int)] ∧
      (1030000 / NS_PER_US - 1010 : Nat) = 20 ∧ (30 : Int) ≠ 20 := by
  refine ⟨?_, by decide, by decide⟩
  decide

/-- C5 (amended): in a run that is still accepted, record_time appends
exactly one sample to each of the three series of the task: the start offset
time - now to the first, the finish-time offset rt_gettime()/NS_PER_US - now
(equal to start offset plus busy span, not the bare span) to the second, and
the busy-loop count to the third. Stated for non-wrapping timestamps. -/
theorem C5_record_time_three_samples (loopVar nrRuns now timeUs tNow l : Nat)
    (s : TaskSeries) (h1 : loopVar < nrRuns) (h2 : now ≤ timeUs)
    (h3 : timeUs ≤ tNow / NS_PER_US) (h4 : tNow / NS_PER_US < U64) :
    record_time loopVar nrRuns now timeUs tNow l s =
      TaskSeries.mk (s.starts ++ [((timeUs - now : Nat) : Int)])
        (s.lengths ++
          [((timeUs - now : Nat) : Int) + ((tNow / NS_PER_US - timeUs : Nat) : Int)])
        (s.loopsCnt ++ [(l : Int)]) := by
  unfold record_time
  rw [if_neg (show ¬ nrRuns ≤ loopVar by omega)]
  have e1 : usub64 timeUs now = timeUs - now :=
    usub64_eq_sub _ _ h2 (by omega)
  have e2 : usub64 (tNow / NS_PER_US) now = tNow / NS_PER_US - now :=
    usub64_eq_sub _ _ (by omega) h4
  rw [e1, e2]
  have e3 : ((tNow / NS_PER_US - now : Nat) : Int) =
      ((timeUs - now : Nat) : Int) + ((tNow / NS_PER_US - timeUs : Nat) : Int) := by
    omega
  rw [e3]

/-- C5 witness: concrete instantiation of the record_time theorem. -/
theorem C5_witness :
    record_time 0 1 1000 1010 1030000 7 (TaskSeries.mk [] [] []) =
      TaskSeries.mk ([] ++ [((1010 - 1000 : Nat) : Int)])
        ([] ++ [((1010 - 1000 : Nat) : Int) +
          ((1030000 / NS_PER_US - 1010 : Nat) : Int)])
        ([] ++ [((7 : Nat) : Int)]) :=
  C5_record_time_three_samples 0 1 1000 1010 1030000 7 (TaskSeries.mk [] [] [])
    (by decide) (by decide) (by decide) (by decide)

/-! The getxattr01 test case. The kernel getxattr call is external input; its
observed return value, errno (TST_ERR, zeroed before the call by the TEST
macro) and the bytes it left in the value buffer are parameters. The run
function emits a sequence of TPASS/TFAIL results: the errno comparison, and
for the success test case also the TST_EXP_EQ_LI return-value comparison and
the memcmp of the first XATTR_TEST_VALUE_SIZE buffer bytes against the
attribute value that setup stored with setxattr. -/

def XATTR_TEST_VALUE : String := "this is a test value"

def XATTR_TEST_VALUE_SIZE : Nat := 20

def BUFFSIZE : Nat := 64

/-- Linux errno values used by the test. -/
def ENODATA : Int := 61

def ERANGE : Int := 34

structure GetxattrTC where
  key : String
  size : Nat
  exp_err : Int
  deriving DecidableEq

/-- The tcases table of getxattr01. -/
def tcases : List GetxattrTC :=
  [ { key := "user.nosuchkey", size := BUFFSIZE - 1, exp_err := ENODATA },
    { key := "user.testkey", size := 1, exp_err := ERANGE },
    { key := "user.testkey", size := BUFFSIZE - 1, exp_err := 0 } ]

inductive TRes where
  | tpass
  | tfail
  deriving DecidableEq

/-- The attribute value written by setup: setxattr stores
strlen(XATTR_TEST_VALUE) = 20 bytes of the test value. -/
def setupWrittenValue : List Char := XATTR_TEST_VALUE.toList

/-- run(i) of getxattr01, for test case `tc`, given the getxattr outcome:
return value `ret` (TST_RET), errno `err` (TST_ERR) and the buffer contents
`buf`. Emits the results in program order. -/
def getxattr01_run (tc : GetxattrTC) (ret err : Int) (buf : List Char) :
    List TRes :=
  if tc.exp_err ≠ 0 then
    [if err = tc.exp_err then TRes.tpass else TRes.tfail]
  else
    [if err = tc.exp_err then TRes.tpass else TRes.tfail,
     if ret = (XATTR_TEST_VALUE_SIZE : Int) then TRes.tpass else TRes.tfail,
     if buf.take XATTR_TEST_VALUE_SIZE =
         setupWrittenValue.take XATTR_TEST_VALUE_SIZE then TRes.tpass
       else TRes.tfail]

/-- C10: for every test case of the table, the first emitted result (the
errno check) is TPASS iff the observed errno equals the expected one; and
the run emits no TFAIL at all iff the errno matches and, in the success
case (exp_err = 0), additionally the return value is 20 and the first 20
buffer bytes equal the attribute value written in setup. -/
theorem C10_getxattr01_run_spec (i : Nat) (tc : GetxattrTC)
    (hi : tcases.get? i = some tc) (ret err : Int) (buf : List Char) :
    ((getxattr01_run tc ret err buf).head? = some TRes.tpass ↔
        err = tc.exp_err) ∧
      (TRes.tfail ∉ getxattr01_run tc ret err buf ↔
        (err = tc.exp_err ∧ (tc.exp_err = 0 → (ret = 20 ∧
          buf.take 20 = setupWrittenValue)))) := by
  have hval : setupWrittenValue.take XATTR_TEST_VALUE_SIZE =
      setupWrittenValue := by decide
  have hlen : XATTR_TEST_VALUE_SIZE = 20 := rfl
  unfold getxattr01_run
  by_cases hz : tc.exp_err ≠ 0
  · rw [if_pos hz]
    constructor
    · by_cases he : err = tc.exp_err
      · simp [he]
      · simp [he]
    · by_cases he : err = tc.exp_err
      · simp [he, hz]
      · simp [he, hz]
  · rw [if_neg hz]
    push_neg at hz
    rw [hval, hlen, hz]
    push_cast
    constructor
    · by_cases he : err = (0 : Int)
      · simp [he]
      · simp [he]
    · by_cases he : err = (0 : Int) <;>
        by_cases hr : ret = (20 : Int) <;>
        by_cases hb : buf.take 20 = setupWrittenValue <;>
        simp [he, hr, hb]

/-- C10 witness: the success test case with the exact expected outcome. -/
theorem C10_witness :
    ((getxattr01_run (GetxattrTC.mk "user.testkey" (BUFFSIZE - 1) 0) 20 0
        XATTR_TEST_VALUE.toList).head? = some TRes.tpass ↔ (0 : Int) = 0) ∧
      (TRes.tfail ∉ getxattr01_run (GetxattrTC.mk "user.testkey" (BUFFSIZE - 1) 0)
          20 0 XATTR_TEST_VALUE.toList ↔
        ((0 : Int) = 0 ∧ ((0 : Int) = 0 → ((20 : Int) = 20 ∧
          XATTR_TEST_VALUE.toList.take 20 = setupWrittenValue)))) :=
  C10_getxattr01_run_spec 2 (GetxattrTC.mk "user.testkey" (BUFFSIZE - 1) 0)
    (by decide) 20 0 XATTR_TEST_VALUE.toList

/-- C1 witness: concrete instantiation of the check_times characterization. -/
theorem C1_witness :
    check_times MAX_ERR (fun _ => 0) (fun _ => 0) (fun _ => 0) 2 = true ↔
      ∃ i, 0 < i ∧ i < 2 ∧
        checkViol MAX_ERR (fun _ => 0) (fun _ => 0) (fun _ => 0) i :=
  C1_check_times_confirms_iff MAX_ERR (fun _ => 0) (fun _ => 0) (fun _ => 0) 2

/-- C8 witness: concrete instantiation of the no-uninitialized-read theorem. -/
theorem C8_witness :
    check_times_uninit MAX_ERR (fun _ => 0) (fun _ => 0) (fun _ => 0) 3 =
      some (check_times MAX_ERR (fun _ => 0) (fun _ => 0) (fun _ => 0) 3) :=
  C8_check_times_no_uninitialized_read MAX_ERR (fun _ => 0) (fun _ => 0)
    (fun _ => 0) 3
